import Mathlib

/-!
Verification of the kind-cluster lifecycle manager and the streaming
subprocess harness.  The definitions below are a shallow embedding of
`pytest_kubernetes/kind/cluster.py`, `pytest_k8s/kind/streaming.py` and
`pytest_k8s/kind/loggers.py`: strings are `List Char`, external commands
are replaced by explicit outcome oracles, and machine state is passed
explicitly.
-/

namespace PK

/-! ### Python string primitives (`str.strip`, `str.rstrip`, `str.split`) -/

/-- Whitespace characters removed by Python `str.strip()` (ASCII subset). -/
def isSpace (c : Char) : Bool :=
  c = ' ' || c = '\t' || c = '\n' || c = '\r' || c = '\x0b' || c = '\x0c'

/-- Remove leading whitespace (`str.lstrip`). -/
def trimLeft (s : List Char) : List Char := s.dropWhile isSpace

/-- Remove trailing whitespace (`str.rstrip`). -/
def trimRight (s : List Char) : List Char := (s.reverse.dropWhile isSpace).reverse

/-- Python `str.strip()`: remove whitespace from both ends. -/
def pyStrip (s : List Char) : List Char := trimRight (trimLeft s)

/-- Helper for `splitNL`: returns the first `'\n'`-separated segment and the
remaining segments of a string. -/
def splitNLA : List Char → List Char × List (List Char)
  | [] => ([], [])
  | c :: cs =>
      let p := splitNLA cs
      if c = '\n' then ([], p.1 :: p.2) else (c :: p.1, p.2)

/-- Python `str.split('\n')`: always returns at least one segment. -/
def splitNL (s : List Char) : List (List Char) := (splitNLA s).1 :: (splitNLA s).2

/-- Drop empty entries (Python truthiness filter on strings). -/
def filterNe (l : List (List Char)) : List (List Char) := l.filter (fun e => !e.isEmpty)

/-- The cluster list the spec describes: split the listing on newlines, trim
whitespace from each entry, drop empty entries. -/
def specClusterList (out : List Char) : List (List Char) :=
  filterNe ((splitNL out).map pyStrip)

/-- All-whitespace predicate. -/
def AllSpace (u : List Char) : Prop := ∀ c ∈ u, isSpace c = true

/-! ### Basic lemmas about the string primitives -/


/-! ### Command-outcome oracles

External commands are replaced by explicit outcome values: `_run_command` with
`check=True` either returns, raises `CalledProcessError`, or raises
`TimeoutExpired`; the version checks additionally distinguish the caught
`FileNotFoundError`/`CalledProcessError` pair from an uncaught timeout. -/

/-- Outcome of `_run_command(..., check=True)`. -/
inductive CmdOut where
  | ok (stdout stderr : List Char)
  | err (rc : Int) (stdout stderr : List Char)
  | timeoutRaised
deriving DecidableEq

def CmdOut.isOk : CmdOut → Bool
  | .ok _ _ => true
  | _ => false

/-- Outcome of `_run_command(["kind","get","clusters"], check=False)` as
observed by `exists()`: a completed process with a return code and stdout, or
any raised exception (all swallowed by `exists()`). -/
inductive ExOut where
  | res (rc : Int) (stdout : List Char)
  | exn
deriving DecidableEq

/-- Outcome of a `_check_kind_available` / `_check_docker_available` probe:
success, a caught failure (`CalledProcessError` / `FileNotFoundError`), or an
uncaught `TimeoutExpired`. -/
inductive ChkOut where
  | ok
  | caughtFailure
  | timeoutRaised
deriving DecidableEq

def ChkOut.isOk : ChkOut → Bool
  | .ok => true
  | _ => false

/-- Outcome of one `kubectl get nodes` readiness probe inside
`wait_for_ready`: a completed process with a return code, or any raised
exception (caught by the loop). -/
inductive ProbeOut where
  | res (rc : Int)
  | exn
deriving DecidableEq

/-- The probe branch taken by the loop body: only exit code `0` returns. -/
def probeSuccess : ProbeOut → Bool
  | .res rc => rc == 0
  | .exn => false

/-! ### Error taxonomy (`pytest_kubernetes/kind/errors.py`) -/

/-- The exceptions `KindCluster` raises, with the message text they carry;
`timeoutExpired` stands for a raw `subprocess.TimeoutExpired` escaping a
method. -/
inductive KindErr where
  | clusterError (msg : List Char)
  | creationError (msg : List Char)
  | deletionError (msg : List Char)
  | timeoutExpired
deriving DecidableEq

def msgKindMissing : List Char := "kind command not available".toList

def msgDockerMissing : List Char := "Docker not available or not running".toList

def msgAlreadyExists (name : List Char) : List Char :=
  "Cluster ".toList ++ name ++ " already exists".toList

def msgFailedCreate (name stderr : List Char) : List Char :=
  "Failed to create cluster ".toList ++ name ++ ": ".toList ++ stderr

def msgExportFailed (stderr : List Char) : List Char :=
  "Failed to export kubeconfig: ".toList ++ stderr

def msgWrapped (inner : List Char) : List Char :=
  "Cluster creation failed: ".toList ++ inner

def msgNotReady (name : List Char) (t : Int) : List Char :=
  "Cluster ".toList ++ name ++ " not ready within ".toList ++
    (toString t).toList ++ " seconds".toList

def msgFailedDelete (name stderr : List Char) : List Char :=
  "Failed to delete cluster ".toList ++ name ++ ": ".toList ++ stderr

def msgTimeoutText : List Char := "TimeoutExpired".toList

/-! ### Cluster state (`KindCluster.__init__` and mutable attributes) -/

structure ClusterState where
  name : List Char
  configPath : Option (List Char)
  timeout : Int
  keep_cluster : Bool
  kubeconfigPath : Option (List Char)
  kubeconfigFileExists : Bool
  created : Bool
  verified : Bool
deriving DecidableEq

/-- `KindCluster.__init__`: stores its arguments and initialises the mutable
attributes; it performs no validation of any argument (in particular none of
`timeout`) and contains no `raise`.  `gen` stands for the generated
`pytest-k8s-<hex>` name used when `name is None`. -/
def KindCluster.init (nm : Option (List Char)) (gen : List Char)
    (cfg : Option (List Char)) (timeout : Int) (keep : Bool) : ClusterState :=
  { name := nm.getD gen
    configPath := cfg
    timeout := timeout
    keep_cluster := keep
    kubeconfigPath := none
    kubeconfigFileExists := false
    created := false
    verified := false }

/-- The constructor viewed as a fallible operation: since the source `__init__`
contains no `raise`, every invocation succeeds. -/
def KindCluster.initE (nm : Option (List Char)) (gen : List Char)
    (cfg : Option (List Char)) (timeout : Int) (keep : Bool) :
    Except KindErr ClusterState :=
  .ok (KindCluster.init nm gen cfg timeout keep)

/-! ### `KindCluster.exists` -/

/-- `exists()`: run `kind get clusters` with `check=False`; on a zero exit
code, strip the stdout, split it on newlines, strip each entry, drop empty
entries and test exact membership of the cluster name; any nonzero exit code
or raised exception yields `false`. -/
def KindCluster.existsB (name : List Char) (o : ExOut) : Bool :=
  match o with
  | .exn => false
  | .res rc out =>
      if rc = 0 then (specClusterList (pyStrip out)).contains name
      else false

/-! ### `KindCluster.wait_for_ready`

The readiness loop polls `kubectl get nodes` while the elapsed wall-clock time
stays below the timeout.  Time is modelled discretely: probe `n` takes
`dur n` units and each loop iteration ends with `time.sleep(2)`.  When the
kubeconfig path is unset the body skips the probe and only sleeps. -/

structure WaitRes where
  verified : Bool
  probes : Nat
  ok : Bool
  elapsed : Nat
deriving DecidableEq

def waitGo (kub : Bool) (probe : Nat → ProbeOut) (dur : Nat → Nat) (t : Int)
    (elapsed : Nat) (n : Nat) : WaitRes :=
  if h : (elapsed : Int) < t then
    if kub then
      if probeSuccess (probe n) then ⟨true, n + 1, true, elapsed + dur n⟩
      else waitGo kub probe dur t (elapsed + dur n + 2) (n + 1)
    else waitGo kub probe dur t (elapsed + 2) n
  else ⟨false, n, false, elapsed⟩
termination_by (t - elapsed).toNat
decreasing_by
  · omega
  · omega

/-- `timeout = timeout or self.timeout`: Python `or` falls back to the
instance timeout when the argument is `None` or the (falsy) integer `0`. -/
def effTimeout (st : ClusterState) (targ : Option Int) : Int :=
  if targ.getD 0 = 0 then st.timeout else targ.getD 0

/-- `wait_for_ready(timeout)`: returns the updated state (`_verified` set on
success), the loop trace, and the raised error (`KindClusterError` carrying
the not-ready message when the timeout is exhausted). -/
def KindCluster.waitForReady (st : ClusterState) (targ : Option Int)
    (probe : Nat → ProbeOut) (dur : Nat → Nat) :
    ClusterState × WaitRes × Option KindErr :=
  let t := effTimeout st targ
  let r := waitGo st.kubeconfigPath.isSome probe dur t 0 0
  if r.ok then ({ st with verified := true }, r, none)
  else (st, r, some (.clusterError (msgNotReady st.name t)))

/-! ### `KindCluster.delete` -/

structure DeleteOracle where
  getClusters : ExOut
  deleteCmd : CmdOut

structure DeleteRes where
  st : ClusterState
  err : Option KindErr
  removalAttempted : Bool

/-- The `finally` block of `delete()`: attempt to unlink the kubeconfig file
when the path attribute is set and the file exists (unlink errors are
swallowed); the path attribute itself is never cleared. -/
def deleteCleanup (s : ClusterState) : ClusterState × Bool :=
  if s.kubeconfigPath.isSome && s.kubeconfigFileExists then
    ({ s with kubeconfigFileExists := false }, true)
  else (s, false)

/-- `delete()`: no-op when `keep_cluster` is set; no-op when `exists()` is
false; otherwise run `kind delete cluster`, resetting `_created`/`_verified`
on success or raising `KindClusterDeletionError` on `CalledProcessError`
(a raw `TimeoutExpired` propagates), with the kubeconfig-removal `finally`
block on each of those paths. -/
def KindCluster.delete (st : ClusterState) (o : DeleteOracle) : DeleteRes :=
  if st.keep_cluster then ⟨st, none, false⟩
  else if !(KindCluster.existsB st.name o.getClusters) then ⟨st, none, false⟩
  else
    match o.deleteCmd with
    | .ok _ _ =>
        let s1 := { st with created := false, verified := false }
        let p := deleteCleanup s1
        ⟨p.1, none, p.2⟩
    | .err _ _ se =>
        let p := deleteCleanup st
        ⟨p.1, some (.deletionError (msgFailedDelete st.name se)), p.2⟩
    | .timeoutRaised =>
        let p := deleteCleanup st
        ⟨p.1, some .timeoutExpired, p.2⟩

/-! ### `KindCluster.create` -/

structure CreateOracle where
  kindCheck : ChkOut
  dockerCheck : ChkOut
  getClusters : ExOut
  createCmd : CmdOut
  exportCmd : CmdOut
  probe : Nat → ProbeOut
  probeDur : Nat → Nat
  rollback : DeleteOracle

structure CreateRes where
  st : ClusterState
  err : Option KindErr
  rollbackRan : Bool

/-- The `except` handlers of `create()`: a best-effort `delete()` whose own
errors are swallowed, followed by re-raising the wrapped creation error. -/
def createRollback (st : ClusterState) (o : CreateOracle) (msg : List Char) :
    CreateRes :=
  let d := KindCluster.delete st o.rollback
  ⟨d.st, some (.creationError msg), true⟩

/-- `create()`: early return when already created; prerequisite checks;
`AlreadyExists` check; creation command; `_setup_kubeconfig` (which sets the
kubeconfig path and creates the temp file *before* running the export
command); `wait_for_ready`.  Failures inside the `try` trigger the rollback
handlers.  `tmpName` stands for the generated kubeconfig temp-file name. -/
def KindCluster.create (st : ClusterState) (o : CreateOracle)
    (tmpName : List Char) : CreateRes :=
  if st.created then ⟨st, none, false⟩
  else
    match o.kindCheck with
    | .timeoutRaised => ⟨st, some .timeoutExpired, false⟩
    | .caughtFailure => ⟨st, some (.clusterError msgKindMissing), false⟩
    | .ok =>
    match o.dockerCheck with
    | .timeoutRaised => ⟨st, some .timeoutExpired, false⟩
    | .caughtFailure => ⟨st, some (.clusterError msgDockerMissing), false⟩
    | .ok =>
    if KindCluster.existsB st.name o.getClusters then
      ⟨st, some (.creationError (msgAlreadyExists st.name)), false⟩
    else
      match o.createCmd with
      | .err _ _ se => createRollback st o (msgFailedCreate st.name se)
      | .timeoutRaised => createRollback st o (msgWrapped msgTimeoutText)
      | .ok _ _ =>
          let st1 := { st with created := true,
                               kubeconfigPath := some tmpName,
                               kubeconfigFileExists := true }
          match o.exportCmd with
          | .err _ _ se =>
              createRollback st1 o (msgWrapped (msgExportFailed se))
          | .timeoutRaised => createRollback st1 o (msgWrapped msgTimeoutText)
          | .ok _ _ =>
              let w := KindCluster.waitForReady st1 none o.probe o.probeDur
              if w.2.1.ok then ⟨w.1, none, false⟩
              else
                createRollback w.1 o
                  (msgWrapped (msgNotReady st1.name (effTimeout st1 none)))

/-! ### Stream loggers (`pytest_k8s/kind/loggers.py`)

`KindStreamLogger` wraps a stdlib logger; `isEnabledFor(level)` holds when the
configured `level` is at least the underlying logger's effective threshold. -/

structure StreamLogger where
  streamName : List Char
  level : Int
  threshold : Int
deriving DecidableEq

/-- `KindStreamLogger.is_enabled` / `logging.Logger.isEnabledFor`. -/
def StreamLogger.isEnabled (lg : StreamLogger) : Bool := lg.threshold ≤ lg.level

/-- The default format template `[KIND {stream}] {message}` instantiated. -/
def formatLine (stream message : List Char) : List Char :=
  "[KIND ".toList ++ stream ++ "] ".toList ++ message

/-- `KindStreamLogger.log_line`: a line that is blank after stripping is
dropped; otherwise, when the level is enabled, the line is forwarded with the
trailing whitespace removed and the stream tag injected.  Returns the emitted
record, if any. -/
def StreamLogger.logLine (lg : StreamLogger) (line : List Char) :
    Option (List Char) :=
  if (pyStrip line).isEmpty then none
  else if lg.isEnabled then
    some (formatLine lg.streamName (trimRight line))
  else none

/-- The default stdout logger (`KindStdoutLogger`, level `INFO = 20`) attached
to an underlying logger with effective threshold `thr`. -/
def stdoutLogger (thr : Int) : StreamLogger :=
  { streamName := "STDOUT".toList, level := 20, threshold := thr }

/-! ### `StreamReader._read_stream`

The reader thread repeatedly calls `readline`; an empty read means
end-of-stream and stops the loop.  Every non-empty line is first appended to
the lock-protected buffer, then forwarded through the logger when the sink is
enabled.  The stream is modelled as the list of successive `readline`
results. -/

def readStream (lg : StreamLogger) : List (List Char) →
    List (List Char) × List (List Char)
  | [] => ([], [])
  | l :: ls =>
      if l.isEmpty then ([], [])
      else
        let r := readStream lg ls
        (l :: r.1, (if lg.isEnabled then (lg.logLine l).toList else []) ++ r.2)

/-! ### `StreamingSubprocess.run` (`pytest_k8s/kind/streaming.py`)

The control flow of one `run()` call after `Popen`: the `try` body ends in one
of five ways (stdin write error, `TimeoutExpired` with in-handler kill,
completed with zero/non-zero exit under `check`), and the `finally` block then
stops the stream readers and, if the process has not exited, terminates it,
escalating to `kill` when the grace wait expires. -/

inductive ProcPhase where
  | running
  | exited (rc : Int)
  | terminatedByCleanup
  | killedByCleanup
  | killedOnTimeout
deriving DecidableEq

def ProcPhase.isTerminal : ProcPhase → Bool
  | .running => false
  | _ => true

inductive RunOutcome where
  | spawnFailed
  | stdinWriteError
  | timedOut
  | calledProcessError (rc : Int)
  | completed (rc : Int)
deriving DecidableEq

structure RunScenario where
  /-- `subprocess.Popen` succeeds. -/
  spawnOk : Bool
  /-- A stdout / stderr logger was supplied, so the pipe is wired and a
  reader is created. -/
  stdoutSink : Bool
  stderrSink : Bool
  /-- `input_data` was supplied. -/
  hasInput : Bool
  /-- The `process.stdin.write` call succeeds. -/
  stdinOk : Bool
  /-- `process.wait(timeout)`: `some rc` when the process exits in time,
  `none` when `TimeoutExpired` is raised. -/
  waitExit : Option Int
  /-- At the `finally` block, `process.poll()` already reports an exit
  (only relevant when the process was left running mid-flow). -/
  deadAtCleanup : Bool
  /-- The exit code observed in that case. -/
  lateRc : Int
  /-- `process.wait(timeout=5.0)` after `terminate()` returns within the
  grace period. -/
  graceOk : Bool
  check : Bool

structure RunRes where
  outcome : RunOutcome
  /-- `none` when `Popen` itself failed and no process was ever spawned. -/
  proc : Option ProcPhase
  stdoutReaderRunning : Bool
  stderrReaderRunning : Bool
  cleanupRan : Bool
deriving DecidableEq

/-- The unconditional `finally` block: `stop_streaming()` plus
poll/terminate/wait/kill on a process that has not exited. -/
def runCleanup (s : RunScenario) (p : ProcPhase) : ProcPhase :=
  match p with
  | .running =>
      if s.deadAtCleanup then .exited s.lateRc
      else if s.graceOk then .terminatedByCleanup
      else .killedByCleanup
  | q => q

/-- `StreamingSubprocess.run` after argument handling: spawn, start readers,
optionally write stdin, wait with timeout, drain, build the result, check the
exit code — with the `finally` cleanup applied to every one of those exit
paths. -/
def StreamingSubprocess.run (s : RunScenario) : RunRes :=
  if !s.spawnOk then ⟨.spawnFailed, none, false, false, false⟩
  else
    let body : RunOutcome × ProcPhase :=
      if s.hasInput && !s.stdinOk then (.stdinWriteError, .running)
      else
        match s.waitExit with
        | none => (.timedOut, .killedOnTimeout)
        | some rc =>
            if s.check && rc != 0 then (.calledProcessError rc, .exited rc)
            else (.completed rc, .exited rc)
    ⟨body.1, some (runCleanup s body.2), false, false, true⟩


/-! ## Supporting lemmas -/

theorem dropWhile_append_allsat {p : Char → Bool} {u : List Char}
    (h : ∀ c ∈ u, p c = true) (l : List Char) :
    (u ++ l).dropWhile p = l.dropWhile p := by
  induction u with
  | nil => rfl
  | cons c cs ih =>
      have hc : p c = true := h c (by simp)
      simp only [List.cons_append, List.dropWhile_cons_of_pos hc]
      exact ih (fun d hd => h d (by simp [hd]))

theorem dropWhile_allsat {p : Char → Bool} {u : List Char}
    (h : ∀ c ∈ u, p c = true) : u.dropWhile p = [] := by
  have := dropWhile_append_allsat h ([] : List Char)
  simpa using this

theorem dropWhile_append_of_ne {p : Char → Bool} {y : List Char}
    (h : y.dropWhile p ≠ []) (w : List Char) :
    (y ++ w).dropWhile p = y.dropWhile p ++ w := by
  induction y with
  | nil => simp at h
  | cons c cs ih =>
      by_cases hc : p c = true
      · simp only [List.cons_append, List.dropWhile_cons_of_pos hc] at *
        exact ih h
      · have hc' : ¬ p c = true := hc
        simp [List.dropWhile_cons_of_neg hc'] at *


theorem allSpace_nil : AllSpace [] := by intro c hc; simp at hc

theorem pyStrip_allSpace {w : List Char} (h : AllSpace w) : pyStrip w = [] := by
  unfold pyStrip trimRight trimLeft
  rw [dropWhile_allsat h]
  rfl

theorem trimLeft_cons_space {c : Char} (hc : isSpace c = true) (y : List Char) :
    trimLeft (c :: y) = trimLeft y := by
  unfold trimLeft
  exact List.dropWhile_cons_of_pos hc

theorem pyStrip_cons_space {c : Char} (hc : isSpace c = true) (y : List Char) :
    pyStrip (c :: y) = pyStrip y := by
  unfold pyStrip
  rw [trimLeft_cons_space hc]

theorem trimRight_append_allSpace {w : List Char} (h : AllSpace w) (y : List Char) :
    trimRight (y ++ w) = trimRight y := by
  unfold trimRight
  rw [List.reverse_append]
  rw [dropWhile_append_allsat (by intro c hc; exact h c (List.mem_reverse.mp hc))]

theorem pyStrip_append_allSpace {w : List Char} (h : AllSpace w) (y : List Char) :
    pyStrip (y ++ w) = pyStrip y := by
  unfold pyStrip trimLeft
  by_cases hy : y.dropWhile isSpace = []
  · rw [dropWhile_append_allsat (p := isSpace)]
    · rw [hy]
      have hw : (w.dropWhile isSpace) = [] := dropWhile_allsat h
      rw [hw]
    · intro c hc
      -- every character of y is whitespace since dropWhile removed all of it
      by_contra hcon
      have : y.dropWhile isSpace ≠ [] := by
        clear hy
        induction y with
        | nil => simp at hc
        | cons d ds ih =>
            rcases List.mem_cons.mp hc with h1 | h2
            · subst h1
              rw [List.dropWhile_cons_of_neg (by simpa using hcon)]
              simp
            · by_cases hd : isSpace d = true
              · rw [List.dropWhile_cons_of_pos hd]; exact ih h2
              · rw [List.dropWhile_cons_of_neg hd]; simp
      exact this hy
  · rw [dropWhile_append_of_ne hy]
    exact trimRight_append_allSpace h _

theorem allSpace_takeWhile (l : List Char) : AllSpace (l.takeWhile isSpace) := by
  induction l with
  | nil => exact allSpace_nil
  | cons c cs ih =>
      by_cases hc : isSpace c = true
      · rw [List.takeWhile_cons_of_pos hc]
        intro d hd
        rcases List.mem_cons.mp hd with h1 | h2
        · subst h1; exact hc
        · exact ih d h2
      · rw [List.takeWhile_cons_of_neg hc]
        exact allSpace_nil

theorem allSpace_reverse {l : List Char} (h : AllSpace l) : AllSpace l.reverse := by
  intro c hc
  exact h c (List.mem_reverse.mp hc)

/-- The decomposition of a string into its whitespace head and `trimLeft`. -/
theorem trimLeft_decomp (s : List Char) :
    s = s.takeWhile isSpace ++ trimLeft s := by
  unfold trimLeft
  rw [List.takeWhile_append_dropWhile]

/-- The decomposition of a string into `trimRight` and its whitespace tail. -/
theorem trimRight_decomp (s : List Char) :
    s = trimRight s ++ (s.reverse.takeWhile isSpace).reverse := by
  unfold trimRight
  conv_lhs => rw [← List.reverse_reverse s]
  conv_lhs => rw [← List.takeWhile_append_dropWhile (p := isSpace) (l := s.reverse)]
  rw [List.reverse_append]

/-! ### Segment structure of `splitNL` -/

theorem splitNLA_allSpace {v : List Char} (h : AllSpace v) :
    AllSpace (splitNLA v).1 ∧ ∀ e ∈ (splitNLA v).2, AllSpace e := by
  induction v with
  | nil => exact ⟨allSpace_nil, by intro e he; simp [splitNLA] at he⟩
  | cons c cs ih =>
      have hc : isSpace c = true := h c (by simp)
      have hcs : AllSpace cs := fun d hd => h d (by simp [hd])
      obtain ⟨ih1, ih2⟩ := ih hcs
      by_cases hnl : c = '\n'
      · constructor
        · simp [splitNLA, hnl]; exact allSpace_nil
        · intro e he
          simp only [splitNLA, hnl, if_pos rfl] at he
          rcases List.mem_cons.mp he with h1 | h2
          · subst h1; exact ih1
          · exact ih2 e h2
      · constructor
        · simp only [splitNLA, if_neg hnl]
          intro d hd
          rcases List.mem_cons.mp hd with h1 | h2
          · subst h1; exact hc
          · exact ih1 d h2
        · intro e he
          simp only [splitNLA, if_neg hnl] at he
          exact ih2 e he

theorem splitNLA_cons_nl (cs : List Char) :
    splitNLA ('\n' :: cs) = ([], (splitNLA cs).1 :: (splitNLA cs).2) := by
  simp [splitNLA]

theorem splitNLA_cons_ne {c : Char} (h : ¬ c = '\n') (cs : List Char) :
    splitNLA (c :: cs) = (c :: (splitNLA cs).1, (splitNLA cs).2) := by
  simp [splitNLA, h]

theorem filterNe_cons (a : List Char) (l : List (List Char)) :
    filterNe (a :: l) = if a.isEmpty then filterNe l else a :: filterNe l := by
  unfold filterNe
  rw [List.filter_cons]
  cases h : a.isEmpty <;> simp [h]

theorem filterNe_allSpace {l : List (List Char)} (h : ∀ e ∈ l, AllSpace e) :
    filterNe (l.map pyStrip) = [] := by
  induction l with
  | nil => rfl
  | cons a l ih =>
      rw [List.map_cons, filterNe_cons]
      have ha : pyStrip a = [] := pyStrip_allSpace (h a (by simp))
      rw [ha]
      simp only [List.isEmpty_nil, if_pos rfl]
      exact ih (fun e he => h e (by simp [he]))

/-- Appending an all-whitespace suffix extends the final segment by whitespace
and leaves every other segment (after trimming and dropping empties) unchanged. -/
theorem splitNLA_append_allSpace {v : List Char} (hv : AllSpace v) (x : List Char) :
    ∃ w, AllSpace w ∧ (splitNLA (x ++ v)).1 = (splitNLA x).1 ++ w ∧
      filterNe (((splitNLA (x ++ v)).2).map pyStrip) =
        filterNe (((splitNLA x).2).map pyStrip) := by
  induction x with
  | nil =>
      refine ⟨(splitNLA v).1, (splitNLA_allSpace hv).1, by simp [splitNLA], ?_⟩
      have h2 := (splitNLA_allSpace hv).2
      simp only [List.nil_append, splitNLA]
      exact filterNe_allSpace h2
  | cons c cs ih =>
      obtain ⟨w, hw, h1, h2⟩ := ih
      by_cases hnl : c = '\n'
      · subst hnl
        refine ⟨[], allSpace_nil, ?_, ?_⟩
        · rw [List.cons_append, splitNLA_cons_nl, splitNLA_cons_nl]
          simp
        · rw [List.cons_append, splitNLA_cons_nl, splitNLA_cons_nl]
          simp only [List.map_cons]
          rw [filterNe_cons, filterNe_cons]
          have heq : pyStrip (splitNLA (cs ++ v)).1 = pyStrip (splitNLA cs).1 := by
            rw [h1, pyStrip_append_allSpace hw]
          rw [heq, h2]
      · refine ⟨w, hw, ?_, ?_⟩
        · rw [List.cons_append, splitNLA_cons_ne hnl, splitNLA_cons_ne hnl]
          simpa using h1
        · rw [List.cons_append, splitNLA_cons_ne hnl, splitNLA_cons_ne hnl]
          exact h2

/-! ### The cluster-list parse is invariant under stripping the raw listing -/

theorem specClusterList_cons_space {c : Char} (hc : isSpace c = true) (y : List Char) :
    specClusterList (c :: y) = specClusterList y := by
  unfold specClusterList splitNL
  by_cases hnl : c = '\n'
  · subst hnl
    rw [splitNLA_cons_nl]
    simp only [List.map_cons]
    rw [filterNe_cons]
    simp [show pyStrip ([] : List Char) = [] from rfl]
  · rw [splitNLA_cons_ne hnl]
    simp only [List.map_cons]
    rw [pyStrip_cons_space hc]

theorem specClusterList_append_left {u : List Char} (hu : AllSpace u) (x : List Char) :
    specClusterList (u ++ x) = specClusterList x := by
  induction u with
  | nil => rfl
  | cons c cs ih =>
      have hc : isSpace c = true := hu c (by simp)
      have hcs : AllSpace cs := fun d hd => hu d (by simp [hd])
      rw [List.cons_append, specClusterList_cons_space hc, ih hcs]

theorem specClusterList_append_right {v : List Char} (hv : AllSpace v) (x : List Char) :
    specClusterList (x ++ v) = specClusterList x := by
  obtain ⟨w, hw, h1, h2⟩ := splitNLA_append_allSpace hv x
  unfold specClusterList splitNL filterNe at *
  simp only [List.map_cons, List.filter_cons]
  rw [h1, pyStrip_append_allSpace hw, h2]

/-- Stripping the whole listing before splitting does not change the parsed
cluster list: the code's `stdout.strip().split('\n')` pipeline and the spec's
`split`-then-trim pipeline agree. -/
theorem specClusterList_pyStrip (s : List Char) :
    specClusterList (pyStrip s) = specClusterList s := by
  have h1 : specClusterList s = specClusterList (trimLeft s) := by
    conv_lhs => rw [trimLeft_decomp s]
    exact specClusterList_append_left (allSpace_takeWhile s) _
  have h2 : specClusterList (trimLeft s) = specClusterList (pyStrip s) := by
    conv_lhs => rw [trimRight_decomp (trimLeft s)]
    exact specClusterList_append_right
      (allSpace_reverse (allSpace_takeWhile (trimLeft s).reverse)) _
  rw [h1, h2]

/-! ## Supporting lemmas for the readiness loop -/

theorem waitGo_invariant (kub : Bool) (probe : Nat → ProbeOut) (dur : Nat → Nat)
    (t : Int) :
    ∀ k, ∀ e n : Nat, (t - (e : Int)).toNat ≤ k →
      ((waitGo kub probe dur t e n).ok = false →
        (waitGo kub probe dur t e n).verified = false) ∧
      ((waitGo kub probe dur t e n).ok = true →
        (waitGo kub probe dur t e n).verified = true ∧
        probeSuccess (probe ((waitGo kub probe dur t e n).probes - 1)) = true) := by
  intro k
  induction k with
  | zero =>
      intro e n hk
      rw [waitGo]
      have he : ¬ ((e : Int) < t) := by omega
      rw [dif_neg he]
      exact ⟨fun _ => rfl, fun h => by simp at h⟩
  | succ k ih =>
      intro e n hk
      rw [waitGo]
      by_cases he : (e : Int) < t
      · rw [dif_pos he]
        by_cases hkub : kub = true
        · rw [if_pos hkub]
          by_cases hp : probeSuccess (probe n) = true
          · rw [if_pos hp]
            refine ⟨fun h => by simp at h, fun _ => ⟨rfl, ?_⟩⟩
            simpa using hp
          · rw [if_neg hp]
            exact ih (e + dur n + 2) (n + 1) (by omega)
        · rw [if_neg hkub]
          exact ih (e + 2) n (by omega)
      · rw [dif_neg he]
        exact ⟨fun _ => rfl, fun h => by simp at h⟩

theorem waitGo_no_kub (probe : Nat → ProbeOut) (dur : Nat → Nat) (t : Int) :
    ∀ k, ∀ e n : Nat, (t - (e : Int)).toNat ≤ k →
      (waitGo false probe dur t e n).ok = false ∧
      (waitGo false probe dur t e n).verified = false ∧
      (waitGo false probe dur t e n).probes = n ∧
      (((waitGo false probe dur t e n).elapsed : Int) ≥ t) := by
  intro k
  induction k with
  | zero =>
      intro e n hk
      rw [waitGo]
      have he : ¬ ((e : Int) < t) := by omega
      rw [dif_neg he]
      exact ⟨rfl, rfl, rfl, by simpa using he⟩
  | succ k ih =>
      intro e n hk
      rw [waitGo]
      by_cases he : (e : Int) < t
      · rw [dif_pos he]
        simp only [Bool.false_eq_true, if_false]
        exact ih (e + 2) n (by omega)
      · rw [dif_neg he]
        exact ⟨rfl, rfl, rfl, by simpa using he⟩

theorem waitGo_two_probes (probe : Nat → ProbeOut) (dur : Nat → Nat) (t : Int)
    (h0 : probeSuccess (probe 0) = false) (h1 : probeSuccess (probe 1) = true)
    (ht : (dur 0 : Int) + 2 < t) :
    waitGo true probe dur t 0 0 = ⟨true, 2, true, 0 + dur 0 + 2 + dur 1⟩ := by
  rw [waitGo]
  have he0 : ((0 : Nat) : Int) < t := by omega
  rw [dif_pos he0, if_pos rfl, if_neg (by simp [h0])]
  rw [waitGo]
  have he1 : ((0 + dur 0 + 2 : Nat) : Int) < t := by push_cast; omega
  rw [dif_pos he1, if_pos rfl, if_pos h1]

/-! ## Supporting lemmas for the lifecycle state machine -/

theorem delete_preserves_kubeconfigPath (st : ClusterState) (o : DeleteOracle) :
    (KindCluster.delete st o).st.kubeconfigPath = st.kubeconfigPath := by
  unfold KindCluster.delete deleteCleanup
  by_cases h1 : st.keep_cluster = true
  · rw [if_pos h1]
  · rw [if_neg h1]
    by_cases h2 : KindCluster.existsB st.name o.getClusters = true
    · rw [if_neg (by simp [h2])]
      cases o.deleteCmd <;> dsimp only <;> split <;> rfl
    · rw [if_pos (by simpa using h2)]

theorem waitForReady_preserves_kubeconfigPath (st : ClusterState)
    (targ : Option Int) (probe : Nat → ProbeOut) (dur : Nat → Nat) :
    (KindCluster.waitForReady st targ probe dur).1.kubeconfigPath =
      st.kubeconfigPath := by
  unfold KindCluster.waitForReady
  dsimp only
  split <;> rfl

/-! ## Supporting lemmas for the stream reader -/

theorem readStream_captured (lg : StreamLogger) (input : List (List Char)) :
    (readStream lg input).1 = input.takeWhile (fun l => !l.isEmpty) := by
  induction input with
  | nil => rfl
  | cons l ls ih =>
      rw [readStream]
      by_cases h : l.isEmpty
      · rw [if_pos h, List.takeWhile_cons_of_neg (by simp [h])]
      · rw [if_neg h, List.takeWhile_cons_of_pos (by simp [h])]
        dsimp only
        rw [ih]

theorem readStream_disabled (lg : StreamLogger) (hd : lg.isEnabled = false)
    (input : List (List Char)) : (readStream lg input).2 = [] := by
  induction input with
  | nil => rfl
  | cons l ls ih =>
      rw [readStream]
      by_cases h : l.isEmpty
      · rw [if_pos h]
      · rw [if_neg h]
        dsimp only
        rw [hd, ih]
        simp

/-! ## Claim theorems -/

/-- C1: on every exit path of the streaming runner's `run()` — normal exit,
timeout, non-zero exit under strict checking, and exceptions raised mid-flow —
the unconditional cleanup step runs whenever a process was spawned, the stream
readers are stopped, and the spawned process never remains running after the
call returns. -/
theorem run_unconditional_cleanup (s : RunScenario) :
    (StreamingSubprocess.run s).cleanupRan = s.spawnOk ∧
    (StreamingSubprocess.run s).proc ≠ some ProcPhase.running ∧
    (StreamingSubprocess.run s).stdoutReaderRunning = false ∧
    (StreamingSubprocess.run s).stderrReaderRunning = false := by
  obtain ⟨sp, so, se, hi, si, we, dc, lrc, g, ch⟩ := s
  cases sp
  · simp [StreamingSubprocess.run]
  · refine ⟨rfl, ?_, rfl, rfl⟩
    simp only [StreamingSubprocess.run, runCleanup, Bool.not_true,
      Bool.false_eq_true, if_false]
    cases hi <;> cases si <;> cases we <;> cases dc <;> cases g <;> cases ch <;>
      (try simp [runCleanup])
    all_goals rename_i rc
    all_goals by_cases hv : rc = 0 <;> simp [hv]

/-- C4: the claim "every negative timeout fails construction with
`InvalidConfiguration`" is false: the constructor performs no validation, so
constructing with `timeout = -1` succeeds (the repository's own
`test_timeout_edge_cases` asserts exactly this). -/
theorem init_negative_timeout_accepted :
    (KindCluster.initE none "pytest-k8s-abc123ef".toList none (-1) false).isOk
      = true ∧
    (KindCluster.init none "pytest-k8s-abc123ef".toList none (-1) false).timeout
      = -1 :=
  ⟨rfl, rfl⟩

/-- C4 (amended): construction never fails — for every timeout value,
negative, zero or positive, the constructor succeeds and stores the value
unvalidated. -/
theorem init_total (nm : Option (List Char)) (gen : List Char)
    (cfg : Option (List Char)) (t : Int) (keep : Bool) :
    KindCluster.initE nm gen cfg t keep =
      .ok (KindCluster.init nm gen cfg t keep) ∧
    (KindCluster.init nm gen cfg t keep).timeout = t :=
  ⟨rfl, rfl⟩

/-- C5: `exists()` returns true iff the cluster name is an exact member of
the listing split on newlines, trimmed entrywise, with empty entries dropped;
every failing enumeration (non-zero exit or exception) yields false. -/
theorem exists_exact_membership (name : List Char) (o : ExOut) :
    KindCluster.existsB name o =
      match o with
      | .res rc out => decide (rc = 0) && (specClusterList out).contains name
      | .exn => false := by
  cases o with
  | exn => rfl
  | res rc out =>
      show (if rc = 0 then (specClusterList (pyStrip out)).contains name
            else false) = _
      rw [specClusterList_pyStrip]
      by_cases h : rc = 0 <;> simp [h]

/-- C8 (counterexample): streaming `"hello\n"`, `"world\n"` and then a blank
line through an enabled stdout sink does *not* capture only two lines — the
blank line is appended to the raw buffer before the forwarding filter drops
it, so three lines are captured. -/
theorem stream_blank_line_is_captured :
    ((readStream (stdoutLogger 20)
      ["hello\n".toList, "world\n".toList, "\n".toList]).1).length = 3 ∧
    ((readStream (stdoutLogger 20)
      ["hello\n".toList, "world\n".toList, "\n".toList]).1).length ≠ 2 := by
  constructor <;> decide

/-- C8 (amended): streaming `"hello\n"`, `"world\n"` and then a blank line
through an enabled stdout sink captures all three lines — the two content
lines in arrival order plus the blank line — while forwarding exactly the two
tagged log entries `[KIND STDOUT] hello` and `[KIND STDOUT] world`, with no
entry for the blank line. -/
theorem stream_hello_world_blank :
    readStream (stdoutLogger 20)
        ["hello\n".toList, "world\n".toList, "\n".toList] =
      (["hello\n".toList, "world\n".toList, "\n".toList],
       ["[KIND STDOUT] hello".toList, "[KIND STDOUT] world".toList]) := by
  decide

/-- C9: for every stream content, the captured line buffer is independent of
the sink's configured level and threshold — it always holds exactly the
non-empty reads, in arrival order — while a disabled sink forwards nothing. -/
theorem capture_independent_of_log_level (input : List (List Char))
    (nameS : List Char) (lvl thr lvl' thr' : Int) :
    (readStream ⟨nameS, lvl, thr⟩ input).1 =
      (readStream ⟨nameS, lvl', thr'⟩ input).1 ∧
    (readStream ⟨nameS, lvl, thr⟩ input).1 =
      input.takeWhile (fun l => !l.isEmpty) ∧
    (¬ thr ≤ lvl → (readStream ⟨nameS, lvl, thr⟩ input).2 = []) := by
  refine ⟨?_, readStream_captured _ input, ?_⟩
  · rw [readStream_captured, readStream_captured]
  · intro h
    exact readStream_disabled _ (by simpa [StreamLogger.isEnabled] using h) input

/-- C9 (witness): with the default stdout level 20 and a threshold of 30 the
sink is disabled, nothing is forwarded, and the buffer still holds the line. -/
theorem capture_independent_of_log_level_witness :
    (readStream ⟨"STDOUT".toList, 20, 30⟩ ["hello\n".toList]).2 = [] :=
  (capture_independent_of_log_level ["hello\n".toList]
    "STDOUT".toList 20 30 20 30).2.2 (by decide)

/-- C3 (counterexample): with `keep_cluster` set, `delete()` returns before
its `finally` block, so a present kubeconfig file is *not* removed even
though the call succeeds. -/
theorem delete_with_keep_skips_kubeconfig :
    (KindCluster.delete
      { name := "pytest-k8s-demo".toList, configPath := none, timeout := 300,
        keep_cluster := true,
        kubeconfigPath := some "/tmp/kubeconfig-demo.yaml".toList,
        kubeconfigFileExists := true, created := true, verified := true }
      { getClusters := ExOut.res 0 "pytest-k8s-demo\n".toList,
        deleteCmd := CmdOut.ok [] [] }).removalAttempted = false ∧
    (KindCluster.delete
      { name := "pytest-k8s-demo".toList, configPath := none, timeout := 300,
        keep_cluster := true,
        kubeconfigPath := some "/tmp/kubeconfig-demo.yaml".toList,
        kubeconfigFileExists := true, created := true, verified := true }
      { getClusters := ExOut.res 0 "pytest-k8s-demo\n".toList,
        deleteCmd := CmdOut.ok [] [] }).err = none := by
  constructor <;> rfl

/-- C3 (amended): `delete()` attempts kubeconfig removal exactly on the path
that invokes the deletion command — `keep_cluster` unset, cluster exists, the
path attribute set and the file present — whether or not that command fails;
with `keep_cluster` set or a non-existing cluster (in particular an object
that never reached `Created`) it returns successfully without touching the
kubeconfig file. -/
theorem delete_kubeconfig_cleanup (st : ClusterState) (o : DeleteOracle) :
    (KindCluster.delete st o).removalAttempted =
      (!st.keep_cluster && KindCluster.existsB st.name o.getClusters &&
        st.kubeconfigPath.isSome && st.kubeconfigFileExists) ∧
    (st.keep_cluster = true → (KindCluster.delete st o).err = none) ∧
    (KindCluster.existsB st.name o.getClusters = false →
      (KindCluster.delete st o).err = none) := by
  unfold KindCluster.delete deleteCleanup
  by_cases h1 : st.keep_cluster = true
  · simp [h1]
  · have h1' : st.keep_cluster = false := by simpa using h1
    by_cases h2 : KindCluster.existsB st.name o.getClusters = true
    · rw [if_neg h1, if_neg (by simp [h2])]
      refine ⟨?_, fun hkc => absurd hkc h1,
        fun hf => by rw [hf] at h2; simp at h2⟩
      cases o.deleteCmd <;> simp [h1', h2] <;> split <;> simp_all
    · have h2' : KindCluster.existsB st.name o.getClusters = false := by
        simpa using h2
      rw [if_neg h1, if_pos (by simp [h2'])]
      simp [h2']

/-- C3 (witness): a kept cluster's `delete()` raises no error. -/
theorem delete_kubeconfig_cleanup_witness :
    (KindCluster.delete
      { name := "pytest-k8s-kept".toList, configPath := none, timeout := 300,
        keep_cluster := true,
        kubeconfigPath := some "/tmp/kubeconfig-kept.yaml".toList,
        kubeconfigFileExists := true, created := false, verified := false }
      { getClusters := ExOut.exn, deleteCmd := CmdOut.ok [] [] }).err = none :=
  (delete_kubeconfig_cleanup _ _).2.1 rfl

/-- C10 (implicit): when the kubeconfig path is unset, `wait_for_ready`
executes no probe at all — it only sleeps through the loop — and therefore
always ends by raising the not-ready error once the full timeout has elapsed,
never a credentials-missing error and never `Verified`. -/
theorem waitForReady_no_kubeconfig_no_probe (st : ClusterState)
    (targ : Option Int) (probe : Nat → ProbeOut) (dur : Nat → Nat)
    (hk : st.kubeconfigPath = none) :
    (KindCluster.waitForReady st targ probe dur).2.1.probes = 0 ∧
    (KindCluster.waitForReady st targ probe dur).2.1.ok = false ∧
    (KindCluster.waitForReady st targ probe dur).2.1.verified = false ∧
    (KindCluster.waitForReady st targ probe dur).1 = st ∧
    (KindCluster.waitForReady st targ probe dur).2.2 =
      some (.clusterError (msgNotReady st.name (effTimeout st targ))) ∧
    (((KindCluster.waitForReady st targ probe dur).2.1.elapsed : Int) ≥
      effTimeout st targ) := by
  have hw := waitGo_no_kub probe dur (effTimeout st targ)
    (effTimeout st targ).toNat 0 0 (by omega)
  obtain ⟨w1, w2, w3, w4⟩ := hw
  unfold KindCluster.waitForReady
  rw [hk]
  simp only [Option.isSome_none]
  rw [if_neg (by simp [w1])]
  exact ⟨w3, w1, w2, rfl, rfl, w4⟩

/-- C10 (witness): even with a probe that would always succeed, a cluster
without exported credentials performs zero probes and still fails not-ready. -/
theorem waitForReady_no_kubeconfig_no_probe_witness :
    (KindCluster.waitForReady
      { name := "pytest-k8s-nocfg".toList, configPath := none, timeout := 4,
        keep_cluster := false, kubeconfigPath := none,
        kubeconfigFileExists := false, created := false, verified := false }
      none (fun _ => ProbeOut.res 0) (fun _ => 0)).2.1.probes = 0 :=
  (waitForReady_no_kubeconfig_no_probe _ none _ _ rfl).1

/-- C7: with exported credentials, `wait_for_ready` repeatedly probes with a
sleep in between until a probe exits zero — setting `Verified` and returning
no error, with the last probe executed being the successful one — or the
elapsed time exceeds the timeout — raising not-ready with `Verified` never
set; under a probe sequence failing once then succeeding (within the
timeout), exactly two probes run and the state ends `Verified`. -/
theorem waitForReady_poll_until_success (st : ClusterState) (targ : Option Int)
    (probe : Nat → ProbeOut) (dur : Nat → Nat)
    (hk : st.kubeconfigPath.isSome = true) :
    ((KindCluster.waitForReady st targ probe dur).2.1.ok = true →
      (KindCluster.waitForReady st targ probe dur).1.verified = true ∧
      probeSuccess
        (probe ((KindCluster.waitForReady st targ probe dur).2.1.probes - 1))
        = true ∧
      (KindCluster.waitForReady st targ probe dur).2.2 = none) ∧
    ((KindCluster.waitForReady st targ probe dur).2.1.ok = false →
      (KindCluster.waitForReady st targ probe dur).1 = st ∧
      (KindCluster.waitForReady st targ probe dur).2.1.verified = false ∧
      (KindCluster.waitForReady st targ probe dur).2.2 =
        some (.clusterError (msgNotReady st.name (effTimeout st targ)))) ∧
    (probeSuccess (probe 0) = false → probeSuccess (probe 1) = true →
      (dur 0 : Int) + 2 < effTimeout st targ →
      (KindCluster.waitForReady st targ probe dur).2.1.probes = 2 ∧
      (KindCluster.waitForReady st targ probe dur).2.1.ok = true ∧
      (KindCluster.waitForReady st targ probe dur).1.verified = true) := by
  have hinv := waitGo_invariant true probe dur (effTimeout st targ)
    (effTimeout st targ).toNat 0 0 (by omega)
  obtain ⟨hnotok, hok⟩ := hinv
  unfold KindCluster.waitForReady
  rw [hk]
  by_cases hr : (waitGo true probe dur (effTimeout st targ) 0 0).ok = true
  · rw [if_pos hr]
    obtain ⟨hv, hp⟩ := hok hr
    refine ⟨fun _ => ⟨rfl, hp, rfl⟩, fun hf => by rw [hr] at hf; simp at hf,
      fun h0 h1 ht => ?_⟩
    rw [waitGo_two_probes probe dur _ h0 h1 ht]
    exact ⟨rfl, rfl, rfl⟩
  · have hr' : (waitGo true probe dur (effTimeout st targ) 0 0).ok = false := by
      simpa using hr
    rw [if_neg (by simp [hr'])]
    refine ⟨fun h => absurd h hr, fun _ => ⟨rfl, hnotok hr', rfl⟩,
      fun h0 h1 ht => ?_⟩
    rw [waitGo_two_probes probe dur _ h0 h1 ht] at hr'
    simp at hr'

/-- C7 (witness): a probe sequence that fails once then succeeds, under
timeout 10, performs exactly two probes and ends `Verified`. -/
theorem waitForReady_poll_until_success_witness :
    (KindCluster.waitForReady
      { name := "pytest-k8s-w7".toList, configPath := none, timeout := 300,
        keep_cluster := false,
        kubeconfigPath := some "/tmp/kubeconfig-w7.yaml".toList,
        kubeconfigFileExists := true, created := true, verified := false }
      (some 10) (fun n => if n == 0 then ProbeOut.res 1 else ProbeOut.res 0)
      (fun _ => 0)).2.1.probes = 2 ∧
    (KindCluster.waitForReady
      { name := "pytest-k8s-w7".toList, configPath := none, timeout := 300,
        keep_cluster := false,
        kubeconfigPath := some "/tmp/kubeconfig-w7.yaml".toList,
        kubeconfigFileExists := true, created := true, verified := false }
      (some 10) (fun n => if n == 0 then ProbeOut.res 1 else ProbeOut.res 0)
      (fun _ => 0)).1.verified = true := by
  have h := (waitForReady_poll_until_success
    { name := "pytest-k8s-w7".toList, configPath := none, timeout := 300,
      keep_cluster := false,
      kubeconfigPath := some "/tmp/kubeconfig-w7.yaml".toList,
      kubeconfigFileExists := true, created := true, verified := false }
    (some 10) (fun n => if n == 0 then ProbeOut.res 1 else ProbeOut.res 0)
    (fun _ => 0) rfl).2.2 (by decide) (by decide) (by decide)
  exact ⟨h.1, h.2.2⟩

/-- C2 (counterexample): `_setup_kubeconfig` assigns the kubeconfig path
*before* running the export command and nothing ever clears it, so after a
`create()` that fails because the export command fails, the kubeconfig path
is set, not absent. -/
theorem create_failed_export_leaves_kubeconfig_set :
    (KindCluster.create
      (KindCluster.init (some "pytest-k8s-c2".toList) "pytest-k8s-c2".toList
        none 300 false)
      { kindCheck := ChkOut.ok, dockerCheck := ChkOut.ok,
        getClusters := ExOut.res 0 [],
        createCmd := CmdOut.ok [] [],
        exportCmd := CmdOut.err 1 [] "boom".toList,
        probe := fun _ => ProbeOut.exn, probeDur := fun _ => 0,
        rollback := { getClusters := ExOut.res 0 [],
                      deleteCmd := CmdOut.ok [] [] } }
      "/tmp/kubeconfig-c2.yaml".toList).st.kubeconfigPath
      = some "/tmp/kubeconfig-c2.yaml".toList ∧
    (KindCluster.create
      (KindCluster.init (some "pytest-k8s-c2".toList) "pytest-k8s-c2".toList
        none 300 false)
      { kindCheck := ChkOut.ok, dockerCheck := ChkOut.ok,
        getClusters := ExOut.res 0 [],
        createCmd := CmdOut.ok [] [],
        exportCmd := CmdOut.err 1 [] "boom".toList,
        probe := fun _ => ProbeOut.exn, probeDur := fun _ => 0,
        rollback := { getClusters := ExOut.res 0 [],
                      deleteCmd := CmdOut.ok [] [] } }
      "/tmp/kubeconfig-c2.yaml".toList).err
      = some (KindErr.creationError
          (msgWrapped (msgExportFailed "boom".toList))) := by
  constructor <;> rfl

/-- C2 (amended): on a fresh cluster object (path absent before `create()`),
after `create()` the kubeconfig path is set — to the export temp file — if
and only if the export step was reached (prerequisites passed, the cluster
did not already exist, and the creation command succeeded); it is set from
that point on even when the export command or the readiness wait fails, and
absent when `create()` fails before reaching export. -/
theorem create_kubeconfig_set_iff_export_reached (st : ClusterState)
    (o : CreateOracle) (tmpName : List Char)
    (hc : st.created = false) (hk : st.kubeconfigPath = none) :
    (KindCluster.create st o tmpName).st.kubeconfigPath
      = (if (o.kindCheck.isOk && o.dockerCheck.isOk &&
             !(KindCluster.existsB st.name o.getClusters) && o.createCmd.isOk)
         then some tmpName else none) := by
  unfold KindCluster.create
  rw [if_neg (by simp [hc])]
  cases hkc : o.kindCheck <;> simp only [ChkOut.isOk]
  case timeoutRaised => simp [hk]
  case caughtFailure => simp [hk]
  case ok =>
  cases hdc : o.dockerCheck <;> simp only [ChkOut.isOk]
  case timeoutRaised => simp [hk]
  case caughtFailure => simp [hk]
  case ok =>
  by_cases he : KindCluster.existsB st.name o.getClusters = true
  · simp [he, hk]
  · have he' : KindCluster.existsB st.name o.getClusters = false := by
      simpa using he
    rw [if_neg (by simp [he'])]
    cases hcc : o.createCmd with
    | err rc so se =>
        simp [CmdOut.isOk, he', createRollback,
          delete_preserves_kubeconfigPath, hk]
    | timeoutRaised =>
        simp [CmdOut.isOk, he', createRollback,
          delete_preserves_kubeconfigPath, hk]
    | ok so se =>
        simp only [CmdOut.isOk, he', Bool.not_false, Bool.and_true,
          Bool.true_and, if_pos rfl]
        cases hec : o.exportCmd with
        | err rc2 so2 se2 =>
            simp [createRollback, delete_preserves_kubeconfigPath]
        | timeoutRaised =>
            simp [createRollback, delete_preserves_kubeconfigPath]
        | ok so2 se2 =>
            dsimp only
            split
            · rw [waitForReady_preserves_kubeconfigPath]
              simp
            · show (KindCluster.delete _ _).st.kubeconfigPath = _
              rw [delete_preserves_kubeconfigPath,
                waitForReady_preserves_kubeconfigPath]
              simp

/-- C2 (witness): a fully successful `create()` on a fresh object ends with
the kubeconfig path set. -/
theorem create_kubeconfig_set_iff_export_reached_witness :
    (KindCluster.create
      (KindCluster.init (some "pytest-k8s-c2w".toList) "pytest-k8s-c2w".toList
        none 300 false)
      { kindCheck := ChkOut.ok, dockerCheck := ChkOut.ok,
        getClusters := ExOut.res 0 [],
        createCmd := CmdOut.ok [] [],
        exportCmd := CmdOut.ok [] [],
        probe := fun _ => ProbeOut.res 0, probeDur := fun _ => 0,
        rollback := { getClusters := ExOut.res 0 [],
                      deleteCmd := CmdOut.ok [] [] } }
      "/tmp/kubeconfig-c2w.yaml".toList).st.kubeconfigPath
      = some "/tmp/kubeconfig-c2w.yaml".toList := by
  rw [create_kubeconfig_set_iff_export_reached _ _ _ rfl rfl]
  decide

/-- C6: for every failure inside the creation sequence — creation command,
credential export, or readiness wait — a best-effort `delete()` runs whose own
errors are swallowed, and the surfaced error is the original failure wrapped
as a creation error carrying the captured diagnostic text, independent of
whatever the rollback oracle does. -/
theorem create_failure_rolls_back_and_wraps (st : ClusterState)
    (o : CreateOracle) (tmpName : List Char) (hc : st.created = false)
    (h1 : o.kindCheck = ChkOut.ok) (h2 : o.dockerCheck = ChkOut.ok)
    (h3 : KindCluster.existsB st.name o.getClusters = false) :
    (∀ rc so se, o.createCmd = CmdOut.err rc so se →
      (KindCluster.create st o tmpName).err =
        some (KindErr.creationError (msgFailedCreate st.name se)) ∧
      (KindCluster.create st o tmpName).rollbackRan = true) ∧
    (∀ so se rc so2 se2, o.createCmd = CmdOut.ok so se →
      o.exportCmd = CmdOut.err rc so2 se2 →
      (KindCluster.create st o tmpName).err =
        some (KindErr.creationError (msgWrapped (msgExportFailed se2))) ∧
      (KindCluster.create st o tmpName).rollbackRan = true) ∧
    (∀ so se so2 se2, o.createCmd = CmdOut.ok so se →
      o.exportCmd = CmdOut.ok so2 se2 →
      (waitGo true o.probe o.probeDur st.timeout 0 0).ok = false →
      (KindCluster.create st o tmpName).err =
        some (KindErr.creationError
          (msgWrapped (msgNotReady st.name st.timeout))) ∧
      (KindCluster.create st o tmpName).rollbackRan = true) := by
  unfold KindCluster.create
  rw [if_neg (by simp [hc]), h1, h2, if_neg (by simp [h3])]
  refine ⟨fun rc so se hcc => ?_, fun so se rc so2 se2 hcc hec => ?_,
    fun so se so2 se2 hcc hec hw => ?_⟩
  · rw [hcc]
    exact ⟨rfl, rfl⟩
  · rw [hcc, hec]
    exact ⟨rfl, rfl⟩
  · rw [hcc, hec]
    dsimp only
    unfold KindCluster.waitForReady
    have hT : effTimeout
        { st with created := true, kubeconfigPath := some tmpName,
                  kubeconfigFileExists := true } none = st.timeout := by
      simp [effTimeout]
    rw [hT]
    simp only [Option.isSome_some]
    rw [if_neg (by simp [hw]), if_neg (by simp [hw])]
    exact ⟨rfl, rfl⟩

/-- C6 (witness): a failing creation command triggers rollback (here the
rollback `delete()` itself fails and is swallowed) and the surfaced error is
the original diagnostic. -/
theorem create_failure_rolls_back_and_wraps_witness :
    (KindCluster.create
      (KindCluster.init (some "pytest-k8s-w6".toList) "pytest-k8s-w6".toList
        none 300 false)
      { kindCheck := ChkOut.ok, dockerCheck := ChkOut.ok,
        getClusters := ExOut.res 0 [],
        createCmd := CmdOut.err 1 [] "boom".toList,
        exportCmd := CmdOut.ok [] [],
        probe := fun _ => ProbeOut.exn, probeDur := fun _ => 0,
        rollback := { getClusters := ExOut.res 0 "pytest-k8s-w6\n".toList,
                      deleteCmd := CmdOut.err 1 [] "rollback-failed".toList } }
      "/tmp/kubeconfig-w6.yaml".toList).err =
      some (KindErr.creationError
        (msgFailedCreate "pytest-k8s-w6".toList "boom".toList)) ∧
    (KindCluster.create
      (KindCluster.init (some "pytest-k8s-w6".toList) "pytest-k8s-w6".toList
        none 300 false)
      { kindCheck := ChkOut.ok, dockerCheck := ChkOut.ok,
        getClusters := ExOut.res 0 [],
        createCmd := CmdOut.err 1 [] "boom".toList,
        exportCmd := CmdOut.ok [] [],
        probe := fun _ => ProbeOut.exn, probeDur := fun _ => 0,
        rollback := { getClusters := ExOut.res 0 "pytest-k8s-w6\n".toList,
                      deleteCmd := CmdOut.err 1 [] "rollback-failed".toList } }
      "/tmp/kubeconfig-w6.yaml".toList).rollbackRan = true :=
  (create_failure_rolls_back_and_wraps _ _ _ rfl rfl rfl (by decide)).1
    1 [] "boom".toList rfl

end PK
